import Mathlib

/-!
Verification of the ollamapy-ocr desktop application (src/main.py).

The development shallowly embeds the two pieces of the program:

* `OCRWorker` — the background dispatcher (`OCRWorker.run`, `OCRWorker.stop`):
  reads the image file, base64-encodes it, sends one HTTP POST to the Groq
  vision-chat endpoint and reports the outcome through Qt signals
  (`status`, `log`, `result`, `error`, `finished`).
* `OCRApp` — the presentation shell: selected image path, model dropdown,
  trigger button, result pane, plus the event handlers
  (`run_ocr`, `cleanup_thread`, `load_image`, `load_pixmap`, `dropEvent`,
  `keyPressEvent`, `select_image`, `check_ollama_connection`).

External effects (filesystem reads, HTTP responses, JSON parsing of the
response body, wall-clock elapsed-time strings, dialog results, clipboard
contents) are supplied as explicit environment values; exceptions raised by
the Python runtime are modelled with `Except String`, the carried string
being `str(e)`.
-/

/-- A Qt signal emitted by the worker, in emission order. -/
inductive Signal
  | status (msg : String)
  | log (msg : String) (isError : Bool)
  | result (text : String)
  | error (msg : String)
  | finished
deriving DecidableEq, Repr

/-- An HTTP response as seen through the `requests` library:
`response.status_code` and `response.text` (the raw body). -/
structure HttpResponse where
  status_code : Nat
  text : String
deriving DecidableEq, Repr

/-- A JSON value, used to model the request body the worker constructs. -/
inductive Json
  | str (s : String)
  | bool (b : Bool)
  | num (n : Nat)
  | arr (elems : List Json)
  | obj (fields : List (String × Json))

/-- An HTTP POST as issued by `requests.post(url, json=data, headers=headers,
timeout=timeout)`. -/
structure HttpPost where
  url : String
  body : Json
  headers : List (String × String)
  timeout : Nat

/-- The base64 alphabet used by `base64.b64encode`. -/
def b64chars : List Char :=
  "ABCDEFGHIJKLMNOPQRSTUVWXYZabcdefghijklmnopqrstuvwxyz0123456789+/".toList

/-- The base64 digit for a 6-bit value. -/
def b64digit (n : Nat) : Char := b64chars.getD n '?'

/-- `base64.b64encode(bytes).decode("utf-8")`: standard base64 with `=`
padding, over a byte list. -/
def b64encode : List Nat → String
  | [] => ""
  | [a] =>
      String.mk [b64digit (a / 4 % 64), b64digit (a % 4 * 16), '=', '=']
  | [a, b] =>
      String.mk [b64digit (a / 4 % 64), b64digit (a % 4 * 16 + b / 16 % 16),
                 b64digit (b % 16 * 4), '=']
  | a :: b :: c :: rest =>
      String.mk [b64digit (a / 4 % 64), b64digit (a % 4 * 16 + b / 16 % 16),
                 b64digit (b % 16 * 4 + c / 64 % 4), b64digit (c % 64)]
        ++ b64encode rest

/-- The fixed instruction prompt (the triple-quoted `prompt` string in
`OCRWorker.run`, including the source indentation of its continuation
lines). -/
def promptText : String :=
  "Extract ALL text from this image exactly as it appears.\n            Preserve original formatting, line breaks, punctuation and special characters.\n            Return ONLY the extracted text with NO additional commentary."

/-- The statically embedded credential `DEMO_KEY` in `OCRWorker.run`. -/
def DEMO_KEY : String := "gsk_be...l"

/-- The fixed endpoint `GROQ_API_URL` in `OCRWorker.run`. -/
def GROQ_API_URL : String := "https://api.groq.com/openai/v1/chat/completions"

/-- The JSON request body `data` built in `OCRWorker.run` from the encoded
image. -/
def groqRequestBody (encoded_image : String) : Json :=
  Json.obj [
    ("messages", Json.arr [
      Json.obj [
        ("role", Json.str "user"),
        ("content", Json.arr [
          Json.obj [("type", Json.str "text"), ("text", Json.str promptText)],
          Json.obj [("type", Json.str "image_url"),
                    ("image_url", Json.obj [
                      ("url", Json.str ("data:image/jpeg;base64," ++ encoded_image))])]
        ])
      ]
    ]),
    ("model", Json.str "llama-3.2-11b-vision-preview"),
    ("stream", Json.bool false)
  ]

/-- The `headers` dict built in `OCRWorker.run`. -/
def groqHeaders : List (String × String) :=
  [("Content-Type", "application/json"),
   ("Authorization", "Bearer " ++ DEMO_KEY)]

/-- The full `requests.post(GROQ_API_URL, json=data, headers=headers,
timeout=120)` call built in `OCRWorker.run`. -/
def groqPost (encoded_image : String) : HttpPost :=
  { url := GROQ_API_URL
    body := groqRequestBody encoded_image
    headers := groqHeaders
    timeout := 120 }

/-- The environment a single `OCRWorker.run` executes against:
* `fileBytes` — the bytes of `open(image_path, "rb").read()`, or the
  exception message if opening/reading raises;
* `postResponse` — the `requests.post` response, or the exception message
  if the request raises (transport error, timeout);
* `parseContent` — the value of
  `response.json().get("choices")[0].get("message").get("content")`
  evaluated on a 200 response body (as a string, before `.strip()`), or the
  exception message if JSON parsing / field access / `.strip()` raises;
* `encodeElapsed`, `totalElapsed` — the formatted elapsed-time strings
  (`f"{time.time()-start_time:.2f}"`) interpolated into status/log lines. -/
structure RunEnv where
  fileBytes : Except String (List Nat)
  postResponse : Except String HttpResponse
  parseContent : Except String String
  encodeElapsed : String
  totalElapsed : String

/-- The `OCRWorker` object: constructor fields of `OCRWorker.__init__`. -/
structure OCRWorker where
  image_path : String
  model : String
  url : String
  is_running : Bool
deriving DecidableEq, Repr

/-- `OCRWorker.__init__(image_path, model, url)`: stores the three arguments
and sets `_is_running = True`. -/
def OCRWorker.mk_init (image_path model url : String) : OCRWorker :=
  { image_path := image_path, model := model, url := url, is_running := true }

/-- `OCRWorker.stop()`: sets `_is_running = False` and nothing else. -/
def OCRWorker.stop (w : OCRWorker) : OCRWorker :=
  { w with is_running := false }

/-- Python's `str.isspace` test on a single character (the characters
`str.strip()` removes): space, tab, newline, carriage return, vertical tab,
form feed. -/
def pyIsSpace (c : Char) : Bool :=
  c = ' ' || c = '\t' || c = '\n' || c = '\r' || c = Char.ofNat 11 || c = Char.ofNat 12

/-- Python's `str.strip()`: drops leading and trailing whitespace. -/
def pyStrip (s : String) : String :=
  String.mk (((s.data.dropWhile pyIsSpace).reverse.dropWhile pyIsSpace).reverse)

/-- The signals emitted by the `except Exception as e:` block of
`OCRWorker.run`: `error` then `log` with `f"Processing error: {str(e)}"`. -/
def exceptSignals (e : String) : List Signal :=
  [Signal.error ("Processing error: " ++ e),
   Signal.log ("Processing error: " ++ e) true]

/-- The `try:` body of `OCRWorker.run` (everything before `finally:`),
returning the signals emitted in order and the list of HTTP POSTs issued. -/
def OCRWorker.runTry (w : OCRWorker) (env : RunEnv) : List Signal × List HttpPost :=
  let s0 := [Signal.status "Processing image..."]
  match env.fileBytes with
  | Except.error e => (s0 ++ exceptSignals e, [])
  | Except.ok bytes =>
    let encoded_image := b64encode bytes
    let s1 := s0 ++
      [Signal.log ("Image encoded in " ++ env.encodeElapsed ++ "s") false,
       Signal.log ("Sending to " ++ w.model) false]
    let req := groqPost encoded_image
    match env.postResponse with
    | Except.error e => (s1 ++ exceptSignals e, [req])
    | Except.ok response =>
      if response.status_code = 200 then
        match env.parseContent with
        | Except.error e => (s1 ++ exceptSignals e, [req])
        | Except.ok content =>
          let text := pyStrip content
          (s1 ++ [Signal.result text,
                  Signal.status ("Done in " ++ env.totalElapsed ++ "s"),
                  Signal.log ("OCR completed in " ++ env.totalElapsed ++ "s") false,
                  Signal.log response.text true], [req])
      else
        let error_msg := "API error (Groq): " ++ response.text
        (s1 ++ [Signal.error error_msg, Signal.log error_msg true], [req])

/-- `OCRWorker.run`: the `try` body, then the `finally:` block emitting
`finished`. -/
def OCRWorker.run (w : OCRWorker) (env : RunEnv) : List Signal × List HttpPost :=
  let r := w.runTry env
  (r.1 ++ [Signal.finished], r.2)

/-- Does a signal report the job's outcome (`result` or `error`)? -/
def Signal.isOutcome : Signal → Bool
  | Signal.result _ => true
  | Signal.error _ => true
  | _ => false

/-- Is this the terminal `finished` signal? -/
def Signal.isFinished : Signal → Bool
  | Signal.finished => true
  | _ => false

/-- The text carried by a `result` signal. -/
def Signal.resultText : Signal → Option String
  | Signal.result t => some t
  | _ => none

/-- The message carried by an `error` signal. -/
def Signal.errorMsg : Signal → Option String
  | Signal.error m => some m
  | _ => none

/-- `needle` occurs as a contiguous substring of `hay`. -/
def strContains (hay needle : String) : Prop :=
  needle.data <:+: hay.data

instance (hay needle : String) : Decidable (strContains hay needle) := by
  unfold strContains
  infer_instance

/-- C1: every run of `OCRWorker.run` emits exactly one of the `result` /
`error` signals, emits the terminal `finished` signal exactly once, and
`finished` comes last — on the success path, the non-200 path and every
exception path alike. -/
theorem C1_one_outcome_then_finished (w : OCRWorker) (env : RunEnv) :
    (w.run env).1.countP (fun s => s.isOutcome) = 1 ∧
    (w.run env).1.countP (fun s => s.isFinished) = 1 ∧
    (w.run env).1.getLast? = some Signal.finished := by
  obtain ⟨fb, pr, pc, e1, e2⟩ := env
  rcases fb with e | bytes <;> rcases pr with e' | resp <;> rcases pc with e'' | content <;>
    simp [OCRWorker.run, OCRWorker.runTry, exceptSignals,
      Signal.isOutcome, Signal.isFinished, List.countP_cons] <;>
    rcases Nat.decEq resp.status_code 200 with h | h <;>
    simp [h, List.countP_cons]

/-- C2: on an HTTP 200 response whose body parses, the single emitted result
text is `choices[0].message.content` with surrounding whitespace trimmed. -/
theorem C2_result_is_trimmed_content (w : OCRWorker) (env : RunEnv)
    (bytes : List Nat) (response : HttpResponse) (content : String)
    (hfb : env.fileBytes = Except.ok bytes)
    (hpr : env.postResponse = Except.ok response)
    (h200 : response.status_code = 200)
    (hpc : env.parseContent = Except.ok content) :
    (w.run env).1.filterMap Signal.resultText = [pyStrip content] := by
  obtain ⟨fb, pr, pc, e1, e2⟩ := env
  cases hfb; cases hpr; cases hpc
  simp [OCRWorker.run, OCRWorker.runTry, h200, Signal.resultText]

/-- A concrete environment: readable image bytes, a 200 response whose parsed
content is `"  Hello World  "`. -/
def helloEnv : RunEnv :=
  { fileBytes := Except.ok [137, 80, 78, 71]
    postResponse := Except.ok { status_code := 200, text := "{...body...}" }
    parseContent := Except.ok "  Hello World  "
    encodeElapsed := "0.01"
    totalElapsed := "0.73" }

/-- Witness for C2: a 200 response with content `"  Hello World  "` yields
exactly the result `"Hello World"`. -/
theorem C2_result_is_trimmed_content_witness :
    ((OCRWorker.mk_init "photo.png" "gemma:2b" "http://localhost:11434").run
        helloEnv).1.filterMap Signal.resultText = ["Hello World"] :=
  (C2_result_is_trimmed_content _ helloEnv [137, 80, 78, 71]
      { status_code := 200, text := "{...body...}" } "  Hello World  "
      rfl rfl rfl rfl).trans (by decide)

/-- The right operand of a string concatenation occurs in the result. -/
theorem strContains_append_right (a b : String) : strContains (a ++ b) b := by
  unfold strContains
  rw [String.data_append]
  exact (List.suffix_append a.data b.data).isInfix

/-- C3: a non-200 response yields an `error` signal whose message contains the
raw response body, and each exception path (unreadable file, transport
failure, parse failure on a 200 body) yields an `error` signal whose message
contains the exception message. -/
theorem C3_failure_messages (w : OCRWorker) (env : RunEnv) :
    (∀ bytes response, env.fileBytes = Except.ok bytes →
        env.postResponse = Except.ok response → response.status_code ≠ 200 →
        ∃ msg, Signal.error msg ∈ (w.run env).1 ∧ strContains msg response.text) ∧
    (∀ e, env.fileBytes = Except.error e →
        ∃ msg, Signal.error msg ∈ (w.run env).1 ∧ strContains msg e) ∧
    (∀ bytes e, env.fileBytes = Except.ok bytes →
        env.postResponse = Except.error e →
        ∃ msg, Signal.error msg ∈ (w.run env).1 ∧ strContains msg e) ∧
    (∀ bytes response e, env.fileBytes = Except.ok bytes →
        env.postResponse = Except.ok response → response.status_code = 200 →
        env.parseContent = Except.error e →
        ∃ msg, Signal.error msg ∈ (w.run env).1 ∧ strContains msg e) := by
  obtain ⟨fb, pr, pc, t1, t2⟩ := env
  refine ⟨?_, ?_, ?_, ?_⟩
  · rintro bytes response rfl rfl hne
    exact ⟨"API error (Groq): " ++ response.text,
      by simp [OCRWorker.run, OCRWorker.runTry, hne],
      strContains_append_right _ _⟩
  · rintro e rfl
    exact ⟨"Processing error: " ++ e,
      by simp [OCRWorker.run, OCRWorker.runTry, exceptSignals],
      strContains_append_right _ _⟩
  · rintro bytes e rfl rfl
    exact ⟨"Processing error: " ++ e,
      by simp [OCRWorker.run, OCRWorker.runTry, exceptSignals],
      strContains_append_right _ _⟩
  · rintro bytes response e rfl rfl h200 rfl
    exact ⟨"Processing error: " ++ e,
      by simp [OCRWorker.run, OCRWorker.runTry, exceptSignals, h200],
      strContains_append_right _ _⟩

/-- A concrete environment with a non-200 response whose body is
`"rate limited"`. -/
def rateLimitedEnv : RunEnv :=
  { fileBytes := Except.ok [137, 80]
    postResponse := Except.ok { status_code := 429, text := "rate limited" }
    parseContent := Except.ok "unused"
    encodeElapsed := "0.01"
    totalElapsed := "0.20" }

/-- A concrete environment where reading the image file raises. -/
def unreadableEnv : RunEnv :=
  { fileBytes := Except.error "No such file or directory: photo.png"
    postResponse := Except.error "unused"
    parseContent := Except.error "unused"
    encodeElapsed := "0.00"
    totalElapsed := "0.00" }

/-- Witness for C3: the non-200 body `"rate limited"` reaches a failure
message containing `"rate limited"`, and an unreadable-file exception message
reaches a failure message containing it. -/
theorem C3_failure_messages_witness :
    (∃ msg, Signal.error msg ∈
        ((OCRWorker.mk_init "photo.png" "gemma:2b" "http://localhost:11434").run
          rateLimitedEnv).1 ∧ strContains msg "rate limited") ∧
    (∃ msg, Signal.error msg ∈
        ((OCRWorker.mk_init "photo.png" "gemma:2b" "http://localhost:11434").run
          unreadableEnv).1 ∧
        strContains msg "No such file or directory: photo.png") :=
  ⟨(C3_failure_messages _ rateLimitedEnv).1 [137, 80]
      { status_code := 429, text := "rate limited" } rfl rfl (by decide),
   (C3_failure_messages _ unreadableEnv).2.1
      "No such file or directory: photo.png" rfl⟩

/-- C8: `stop()` only clears the `_is_running` flag, which `run` never reads:
a stopped worker's run emits exactly the same signals (and issues the same
POSTs) as the un-stopped worker's, whatever the flag's value. -/
theorem C8_stop_does_not_affect_run (w : OCRWorker) (env : RunEnv) :
    (OCRWorker.stop w).is_running = false ∧
    (OCRWorker.stop w).run env = w.run env ∧
    (∀ b : Bool,
      OCRWorker.run { w with is_running := b } env = w.run env) := by
  refine ⟨rfl, ?_, fun b => ?_⟩ <;> cases w <;> rfl

/-- C9: whenever the image file is readable, the run issues exactly one HTTP
POST, and it has the specified shape: the fixed Groq endpoint, the bearer
credential header, timeout 120, and a JSON body with one user message whose
text part is the fixed prompt and whose image part is the base64 data URL of
the image bytes, the fixed model string, and stream false. -/
theorem C9_request_shape (w : OCRWorker) (env : RunEnv) (bytes : List Nat)
    (hfb : env.fileBytes = Except.ok bytes) :
    (w.run env).2 = [groqPost (b64encode bytes)] ∧
    (groqPost (b64encode bytes)).url =
      "https://api.groq.com/openai/v1/chat/completions" ∧
    (groqPost (b64encode bytes)).timeout = 120 ∧
    ("Authorization", "Bearer gsk_be...l") ∈ (groqPost (b64encode bytes)).headers ∧
    (groqPost (b64encode bytes)).body = Json.obj [
      ("messages", Json.arr [
        Json.obj [
          ("role", Json.str "user"),
          ("content", Json.arr [
            Json.obj [("type", Json.str "text"), ("text", Json.str promptText)],
            Json.obj [("type", Json.str "image_url"),
                      ("image_url", Json.obj [
                        ("url", Json.str ("data:image/jpeg;base64," ++ b64encode bytes))])]
          ])
        ]
      ]),
      ("model", Json.str "llama-3.2-11b-vision-preview"),
      ("stream", Json.bool false)] := by
  obtain ⟨fb, pr, pc, t1, t2⟩ := env
  cases hfb
  refine ⟨?_, rfl, rfl, by simp [groqPost, groqHeaders, DEMO_KEY], rfl⟩
  rcases pr with e | resp
  · rfl
  · rcases pc with e | content <;>
      simp [OCRWorker.run, OCRWorker.runTry] <;>
      rcases Nat.decEq resp.status_code 200 with h | h <;> simp [h]

/-- Witness for C9: the run against `helloEnv` issues exactly the specified
POST for the bytes `[137, 80, 78, 71]`. -/
theorem C9_request_shape_witness :
    ((OCRWorker.mk_init "photo.png" "gemma:2b" "http://localhost:11434").run
        helloEnv).2 = [groqPost (b64encode [137, 80, 78, 71])] :=
  (C9_request_shape _ helloEnv [137, 80, 78, 71] rfl).1

/-- C10: the request is independent of the `model` argument: two workers with
the same image path but different model identifiers issue identical POSTs
(same URL, headers, body, timeout), and their signal traces agree except that
the `"Sending to <model>"` progress log line carries the respective model. -/
theorem C10_request_independent_of_model (p u : String) (b : Bool)
    (m1 m2 : String) (env : RunEnv) :
    (OCRWorker.run ⟨p, m1, u, b⟩ env).2 = (OCRWorker.run ⟨p, m2, u, b⟩ env).2 ∧
    List.Forall₂ (fun s1 s2 => s1 = s2 ∨
        (s1 = Signal.log ("Sending to " ++ m1) false ∧
         s2 = Signal.log ("Sending to " ++ m2) false))
      (OCRWorker.run ⟨p, m1, u, b⟩ env).1 (OCRWorker.run ⟨p, m2, u, b⟩ env).1 := by
  obtain ⟨fb, pr, pc, t1, t2⟩ := env
  rcases fb with e | bytes <;> rcases pr with e' | resp <;> rcases pc with e'' | content <;>
    simp [OCRWorker.run, OCRWorker.runTry, exceptSignals] <;>
    rcases Nat.decEq resp.status_code 200 with h | h <;>
    simp [h, List.forall₂_cons]

/-- A Qt pixmap: whether it is null, and an identifier for its pixel
content. -/
structure Pixmap where
  isNull : Bool
  content : String
deriving DecidableEq, Repr

/-- Python's `str.lower()` on an ASCII letter (sufficient for the extension
check, whose candidates are all ASCII). -/
def pyLowerChar (c : Char) : Char :=
  if 'A' ≤ c ∧ c ≤ 'Z' then Char.ofNat (c.toNat + 32) else c

/-- Python's `str.lower()`. -/
def pyLower (s : String) : String := String.mk (s.data.map pyLowerChar)

/-- Python's `str.endswith(suffix)`. -/
def pyEndsWith (s suffix : String) : Bool := suffix.data.isSuffixOf s.data

/-- The extension allow-list test
`file_path.lower().endswith(('.png', '.jpg', '.jpeg', '.bmp', '.gif'))`
shared by `dropEvent` and `keyPressEvent`. -/
def allowedExt (file_path : String) : Bool :=
  [".png", ".jpg", ".jpeg", ".bmp", ".gif"].any
    (fun e => pyEndsWith (pyLower file_path) e)

/-- Python's `path.split('/')[-1]`: the part after the last slash. -/
def pySplitLast (p : String) : String :=
  String.mk ((p.data.reverse.takeWhile (fun c => c != '/')).reverse)

/-- Python's substring operator `needle in hay`. -/
def strIn (needle hay : String) : Bool :=
  hay.data.tails.any (fun t => needle.data.isPrefixOf t)

/-- `QComboBox.findText(text)` with the default match flags
`MatchExactly | MatchCaseSensitive`: the index of the first item equal to
`text`, or `-1` when none is. -/
def findTextExact : List String → String → Int
  | [], _ => -1
  | m :: rest, text =>
    if m = text then 0
    else
      let r := findTextExact rest text
      if r < 0 then -1 else r + 1

/-- The clipboard's mime data, as `keyPressEvent` interrogates it:
`hasImage()` (and the image `clipboard.image()` returns) and the local file
paths of `mimeData().urls()`. -/
structure ClipData where
  image : Option Pixmap
  urls : List String
deriving DecidableEq, Repr

/-- The `/api/tags` model-listing response as `check_ollama_connection`
consumes it: `status_code`, raw `text`, and the `name` fields of the parsed
`models` entries. -/
structure TagsResponse where
  status_code : Nat
  text : String
  models : List String
deriving DecidableEq, Repr

/-- The presentation shell `OCRApp`: its Python attributes plus the widget
state the handlers read and write (dropdown items and current index, button
enabled flag, result pane, status bar, image label), and observation lists
recording the warning/critical message boxes shown and the workers handed to
a background thread (each of which performs one network call). -/
structure OCRApp where
  image_path : String
  ollama_url : String
  preferred_model : String
  available_models : List String
  workerActive : Bool
  process_btn_enabled : Bool
  dropdown_items : List String
  dropdown_index : Int
  result_text : String
  status_text : String
  status_is_error : Bool
  image_info : String
  thumbnail : Option String
  label_text : String
  warnings : List String
  criticals : List String
  dispatched : List OCRWorker
deriving DecidableEq, Repr

/-- The state after `OCRApp.__init__` / `init_ui`: no image, the dropdown
holding the placeholder `"Loading models..."` (selected, as the first item
added to an empty combo box), the trigger enabled, no worker thread. -/
def initState : OCRApp :=
  { image_path := ""
    ollama_url := "http://localhost:11434"
    preferred_model := "gemma:2b"
    available_models := []
    workerActive := false
    process_btn_enabled := true
    dropdown_items := ["Loading models..."]
    dropdown_index := 0
    result_text := ""
    status_text := "Ready"
    status_is_error := false
    image_info := "No image loaded"
    thumbnail := none
    label_text := "Click to select an image\nor drag & drop here\nor paste from clipboard"
    warnings := []
    criticals := []
    dispatched := [] }

/-- `QComboBox.currentText()`: the item at the current index, or `""` when
no item is selected (index `-1`). -/
def OCRApp.currentText (s : OCRApp) : String :=
  if s.dropdown_index < 0 then ""
  else s.dropdown_items.getD s.dropdown_index.toNat ""

/-- `OCRApp.update_status(message, error)`. -/
def OCRApp.update_status (s : OCRApp) (message : String) (error : Bool) : OCRApp :=
  { s with status_text := message, status_is_error := error }

/-- `OCRApp.run_ocr` — the second, effective definition (the first is
overwritten by it): refuse with a warning when no image path or no dropdown
text; otherwise disable the trigger, clear the result pane, and hand one
`OCRWorker(image_path, currentText, ollama_url)` to a new thread. -/
def OCRApp.run_ocr (s : OCRApp) : OCRApp :=
  if s.image_path = "" then
    { s with warnings := s.warnings ++ ["Please select an image first"] }
  else if s.currentText = "" then
    { s with warnings := s.warnings ++ ["Please select a model first"] }
  else
    { s with process_btn_enabled := false
             result_text := ""
             workerActive := true
             dispatched := s.dispatched ++
               [OCRWorker.mk_init s.image_path s.currentText s.ollama_url] }

/-- `OCRApp.cleanup_thread`: quits and drops the worker thread and re-enables
the trigger. -/
def OCRApp.cleanup_thread (s : OCRApp) : OCRApp :=
  { s with workerActive := false, process_btn_enabled := true }

/-- `OCRApp.handle_result(text)`: replaces the result pane's contents. -/
def OCRApp.handle_result (s : OCRApp) (text : String) : OCRApp :=
  { s with result_text := text }

/-- `OCRApp.handle_error(error_msg)`: shows a critical message box and sets
an error status. -/
def OCRApp.handle_error (s : OCRApp) (error_msg : String) : OCRApp :=
  ({ s with criticals := s.criticals ++ [error_msg] }).update_status
    "Error occurred" true

/-- `OCRApp.load_pixmap(pixmap)`: when the pixmap is not null, displays it
(scaled) in the image label and clears the label's placeholder text. -/
def OCRApp.load_pixmap (s : OCRApp) (pixmap : Pixmap) : OCRApp :=
  if !pixmap.isNull then
    { s with thumbnail := some pixmap.content, label_text := "" }
  else s

/-- `OCRApp.load_image(file_path)`: records the path, shows the basename,
displays `QPixmap(file_path)` (read through the filesystem map `fs`), and
updates the status line. -/
def OCRApp.load_image (fs : String → Pixmap) (s : OCRApp) (file_path : String) :
    OCRApp :=
  let s1 := { s with image_path := file_path, image_info := pySplitLast file_path }
  let s2 := s1.load_pixmap (fs file_path)
  s2.update_status ("Loaded: " ++ pySplitLast file_path) false

/-- `OCRApp.select_image`: a file dialog returns `file_path` (`""` on
cancel); a non-empty result is loaded. -/
def OCRApp.select_image (fs : String → Pixmap) (s : OCRApp)
    (file_path : String) : OCRApp :=
  if file_path = "" then s else s.load_image fs file_path

/-- `OCRApp.dropEvent`: loads the first dropped local file whose name passes
the extension allow-list (the loop breaks after it). -/
def OCRApp.dropEvent (fs : String → Pixmap) (s : OCRApp) (urls : List String) :
    OCRApp :=
  match urls.find? (fun u => allowedExt u) with
  | some file_path => s.load_image fs file_path
  | none => s

/-- `OCRApp.keyPressEvent` on Ctrl+V: a clipboard bitmap goes straight to
`load_pixmap`; otherwise the first clipboard file URL passing the extension
allow-list is loaded. -/
def OCRApp.keyPressEvent (fs : String → Pixmap) (s : OCRApp) (clip : ClipData) :
    OCRApp :=
  match clip.image with
  | some qimage => s.load_pixmap qimage
  | none =>
    match clip.urls.find? (fun u => allowedExt u) with
    | some file_path => s.load_image fs file_path
    | none => s

/-- `OCRApp.check_ollama_connection`: GET `/api/tags`; on 200 replace the
model catalog and dropdown with the returned names (the first becoming
current), and when some name contains the preferred model as a substring,
`setCurrentIndex(findText(preferred_model))`; on non-200 or exception set an
error status. -/
def OCRApp.check_ollama_connection (s : OCRApp)
    (resp : Except String TagsResponse) : OCRApp :=
  let s := s.update_status "Connecting to Ollama..." false
  match resp with
  | Except.error e => s.update_status ("Error: " ++ e) true
  | Except.ok r =>
    if r.status_code = 200 then
      let s := { s with available_models := r.models }
      let s := { s with dropdown_items := [], dropdown_index := -1 }
      let s :=
        if s.available_models = [] then s
        else
          let s := { s with dropdown_items := s.available_models, dropdown_index := 0 }
          if s.available_models.any (fun m => strIn s.preferred_model m) then
            { s with dropdown_index := findTextExact s.dropdown_items s.preferred_model }
          else s
      s.update_status
        ("Connected | " ++ toString s.available_models.length ++ " models") false
    else
      s.update_status "Connection failed" true

/-- A user-visible or worker-originated event the shell reacts to. A click on
the trigger button reaches `run_ocr` only while the button is enabled
(a disabled `QPushButton` emits no `clicked` signal). -/
inductive Event
  | clickRunOcr
  | workerResult (text : String)
  | workerError (msg : String)
  | workerStatus (msg : String)
  | workerFinished
  | imageClick (dialogResult : String)
  | drop (urls : List String)
  | pasteKey (clip : ClipData)
  | connCheck (resp : Except String TagsResponse)

/-- One step of the shell: dispatch an event to its handler. -/
def OCRApp.step (fs : String → Pixmap) (s : OCRApp) : Event → OCRApp
  | Event.clickRunOcr => if s.process_btn_enabled then s.run_ocr else s
  | Event.workerResult t => s.handle_result t
  | Event.workerError m => s.handle_error m
  | Event.workerStatus m => s.update_status m false
  | Event.workerFinished => s.cleanup_thread
  | Event.imageClick d => s.select_image fs d
  | Event.drop urls => s.dropEvent fs urls
  | Event.pasteKey clip => s.keyPressEvent fs clip
  | Event.connCheck r => s.check_ollama_connection r

/-- The shell state after a sequence of events from startup. -/
def runEvents (fs : String → Pixmap) (es : List Event) : OCRApp :=
  es.foldl (OCRApp.step fs) initState

/-- C4: submitting with no image path or no dropdown text shows exactly one
warning and changes nothing else: no worker is dispatched, and the trigger,
result pane, image path, worker slot and dropdown are untouched. -/
theorem C4_guarded_submit (s : OCRApp)
    (h : s.image_path = "" ∨ s.currentText = "") :
    (s.run_ocr.warnings = s.warnings ++ ["Please select an image first"] ∨
     s.run_ocr.warnings = s.warnings ++ ["Please select a model first"]) ∧
    s.run_ocr.dispatched = s.dispatched ∧
    s.run_ocr.process_btn_enabled = s.process_btn_enabled ∧
    s.run_ocr.result_text = s.result_text ∧
    s.run_ocr.image_path = s.image_path ∧
    s.run_ocr.workerActive = s.workerActive ∧
    s.run_ocr.dropdown_items = s.dropdown_items ∧
    s.run_ocr.dropdown_index = s.dropdown_index := by
  rcases h with h | h
  · simp [OCRApp.run_ocr, h]
  · by_cases hip : s.image_path = "" <;> simp [OCRApp.run_ocr, hip, h]

/-- Witness for C4: at startup no image is selected, so submitting warns and
dispatches nothing. -/
theorem C4_guarded_submit_witness :
    (initState.run_ocr.warnings = initState.warnings ++ ["Please select an image first"] ∨
     initState.run_ocr.warnings = initState.warnings ++ ["Please select a model first"]) ∧
    initState.run_ocr.dispatched = initState.dispatched ∧
    initState.run_ocr.process_btn_enabled = initState.process_btn_enabled ∧
    initState.run_ocr.result_text = initState.result_text ∧
    initState.run_ocr.image_path = initState.image_path ∧
    initState.run_ocr.workerActive = initState.workerActive ∧
    initState.run_ocr.dropdown_items = initState.dropdown_items ∧
    initState.run_ocr.dropdown_index = initState.dropdown_index :=
  C4_guarded_submit initState (Or.inl rfl)

/-- An exact match in the catalog: `findText` returns its (non-negative)
index, and the item there is the searched text. -/
theorem findTextExact_mem (items : List String) (t : String) (h : t ∈ items) :
    0 ≤ findTextExact items t ∧
    items.getD (findTextExact items t).toNat "" = t := by
  induction items with
  | nil => cases h
  | cons m rest ih =>
    by_cases hm : m = t
    · simp [findTextExact, hm]
    · have ht : t ∈ rest := by
        cases h with
        | head => exact absurd rfl hm
        | tail _ h' => exact h'
      obtain ⟨h0, hg⟩ := ih ht
      have hlt : ¬ findTextExact rest t < 0 := by omega
      refine ⟨?_, ?_⟩
      · simp only [findTextExact, hm, if_false, hlt]
        omega
      · have hsucc : (findTextExact rest t + 1).toNat = (findTextExact rest t).toNat + 1 := by
          omega
        simp only [findTextExact, hm, if_false, hlt, if_neg hlt, hsucc,
          List.getD_cons_succ]
        exact hg

/-- No exact match in the catalog: `findText` returns `-1`. -/
theorem findTextExact_not_mem (items : List String) (t : String)
    (h : t ∉ items) : findTextExact items t = -1 := by
  induction items with
  | nil => rfl
  | cons m rest ih =>
    have hm : ¬ m = t := fun he => h (he ▸ List.mem_cons_self m rest)
    have ht : t ∉ rest := fun he => h (List.mem_cons_of_mem m he)
    simp [findTextExact, hm, ih ht]

/-- C5 counterexample: with catalog `["gemma:2b-instruct"]`, the entry
contains the preferred model `"gemma:2b"` as a substring, yet after the 200
response the preferred model is not selected — `findText` finds no exact
match, `setCurrentIndex(-1)` clears the selection, and the default (first
entry) is not kept either. -/
theorem C5_substring_match_counterexample :
    strIn initState.preferred_model "gemma:2b-instruct" = true ∧
    (initState.check_ollama_connection
        (Except.ok { status_code := 200, text := "resp", models := ["gemma:2b-instruct"] })).available_models
      = ["gemma:2b-instruct"] ∧
    (initState.check_ollama_connection
        (Except.ok { status_code := 200, text := "resp", models := ["gemma:2b-instruct"] })).dropdown_index
      = -1 ∧
    (initState.check_ollama_connection
        (Except.ok { status_code := 200, text := "resp", models := ["gemma:2b-instruct"] })).currentText
      ≠ initState.preferred_model ∧
    (initState.check_ollama_connection
        (Except.ok { status_code := 200, text := "resp", models := ["gemma:2b-instruct"] })).currentText
      ≠ "gemma:2b-instruct" := by decide

/-- Every string contains itself as a substring (`t in t` in Python). -/
theorem strIn_refl (s : String) : strIn s s = true := by
  unfold strIn
  rw [List.any_eq_true]
  exact ⟨s.data, (List.mem_tails _ _).mpr (List.suffix_refl _),
    List.isPrefixOf_iff_prefix.mpr (List.prefix_refl _)⟩

/-- C5 as amended: on a 200 response the catalog and dropdown are replaced by
the returned names; the preferred model ends up selected when some entry
equals it exactly; when an entry contains it only as a proper substring (no
exact match) the selection is cleared (index `-1`, empty current text); and
when no entry contains it the default selection (the first returned name)
is kept. -/
theorem C5_amended_startup_selection (s : OCRApp) (r : TagsResponse)
    (h200 : r.status_code = 200) (hne : r.models ≠ []) :
    (s.check_ollama_connection (Except.ok r)).available_models = r.models ∧
    (s.check_ollama_connection (Except.ok r)).dropdown_items = r.models ∧
    (s.preferred_model ∈ r.models →
      (s.check_ollama_connection (Except.ok r)).currentText = s.preferred_model) ∧
    (r.models.any (fun m => strIn s.preferred_model m) = true →
      s.preferred_model ∉ r.models →
      (s.check_ollama_connection (Except.ok r)).dropdown_index = -1 ∧
      (s.check_ollama_connection (Except.ok r)).currentText = "") ∧
    (r.models.any (fun m => strIn s.preferred_model m) = false →
      (s.check_ollama_connection (Except.ok r)).dropdown_index = 0) := by
  by_cases hany : r.models.any (fun m => strIn s.preferred_model m) = true
  · refine ⟨?_, ?_, ?_, ?_, ?_⟩ <;>
      simp [OCRApp.check_ollama_connection, OCRApp.update_status, h200, hne,
        hany, OCRApp.currentText]
    · intro hmem
      obtain ⟨h0, hg⟩ := findTextExact_mem r.models s.preferred_model hmem
      have hlt : ¬ findTextExact r.models s.preferred_model < 0 := by omega
      simp [List.getD] at hg
      simp [hlt, hg]
    · intro hnmem
      simp [findTextExact_not_mem r.models s.preferred_model hnmem]
  · refine ⟨?_, ?_, ?_, ?_, ?_⟩ <;>
      simp [OCRApp.check_ollama_connection, OCRApp.update_status, h200, hne,
        hany, OCRApp.currentText]
    intro hmem
    exact absurd (List.any_eq_true.mpr ⟨s.preferred_model, hmem, strIn_refl _⟩) hany

/-- Witness for the amended C5: with catalog `["llava", "gemma:2b"]` the
exact entry `"gemma:2b"` is selected. -/
theorem C5_amended_startup_selection_witness :
    (initState.check_ollama_connection
        (Except.ok { status_code := 200, text := "resp", models := ["llava", "gemma:2b"] })).currentText
      = "gemma:2b" :=
  (C5_amended_startup_selection initState
      { status_code := 200, text := "resp", models := ["llava", "gemma:2b"] }
      rfl (by decide)).2.2.1 (by decide)

/-- A filesystem where every path loads as a non-null pixmap whose content is
identified by the path. -/
def demoFs : String → Pixmap := fun p => { isNull := false, content := p }

/-- C6 counterexample: pasting a bitmap of the image reaches `load_pixmap`
directly, not `load_image` — it leaves the image path unset, so its
image-selection state differs from the state the file-based paths produce
for the same image. -/
theorem C6_bitmap_paste_counterexample :
    (initState.keyPressEvent demoFs
        { image := some { isNull := false, content := "x.png" }, urls := [] }).image_path
      = "" ∧
    (initState.load_image demoFs "x.png").image_path = "x.png" ∧
    initState.keyPressEvent demoFs
        { image := some { isNull := false, content := "x.png" }, urls := [] }
      ≠ initState.load_image demoFs "x.png" := by decide

/-- C6 as amended: the file-picker dialog, drag-and-drop of a file URL, and
clipboard paste of a file URL all reduce to the same `load_image` call and so
end in identical states; clipboard paste of a bitmap instead goes straight to
`load_pixmap`, displaying the thumbnail but leaving the image path (and the
rest of the state except the image label) unchanged. -/
theorem C6_amended_image_supply (fs : String → Pixmap) (s : OCRApp)
    (p : String) (hne : p ≠ "") (hext : allowedExt p = true) :
    s.select_image fs p = s.load_image fs p ∧
    s.dropEvent fs [p] = s.load_image fs p ∧
    s.keyPressEvent fs { image := none, urls := [p] } = s.load_image fs p ∧
    (∀ pm : Pixmap,
      s.keyPressEvent fs { image := some pm, urls := [p] } = s.load_pixmap pm ∧
      (s.keyPressEvent fs { image := some pm, urls := [p] }).image_path
        = s.image_path) := by
  refine ⟨?_, ?_, ?_, fun pm => ⟨rfl, ?_⟩⟩
  · simp [OCRApp.select_image, hne]
  · simp [OCRApp.dropEvent, List.find?, hext]
  · simp [OCRApp.keyPressEvent, List.find?, hext]
  · simp only [OCRApp.keyPressEvent, OCRApp.load_pixmap]
    split <;> rfl

/-- Witness for the amended C6: at startup, picking `"x.png"` in the dialog
equals loading it directly, and pasting a bitmap keeps the empty image
path. -/
theorem C6_amended_image_supply_witness :
    initState.select_image demoFs "x.png" = initState.load_image demoFs "x.png" ∧
    (initState.keyPressEvent demoFs
        { image := some { isNull := false, content := "pix" }, urls := ["x.png"] }).image_path
      = initState.image_path :=
  ⟨(C6_amended_image_supply demoFs initState "x.png" (by decide) (by decide)).1,
   ((C6_amended_image_supply demoFs initState "x.png" (by decide) (by decide)).2.2.2
      { isNull := false, content := "pix" }).2⟩

/-- The single-flight invariant: the trigger button is enabled exactly when
no worker is active. One shell step preserves it. -/
theorem flightInv_step (fs : String → Pixmap) (s : OCRApp) (e : Event)
    (h : s.process_btn_enabled = !s.workerActive) :
    (OCRApp.step fs s e).process_btn_enabled = !(OCRApp.step fs s e).workerActive := by
  cases e <;>
    simp only [OCRApp.step, OCRApp.run_ocr, OCRApp.handle_result,
      OCRApp.handle_error, OCRApp.update_status, OCRApp.cleanup_thread,
      OCRApp.select_image, OCRApp.load_image, OCRApp.load_pixmap,
      OCRApp.dropEvent, OCRApp.keyPressEvent, OCRApp.check_ollama_connection] <;>
    (repeat' split) <;>
    first
    | rfl
    | assumption

/-- The single-flight invariant holds in every reachable shell state. -/
theorem flightInv_runEvents (fs : String → Pixmap) (es : List Event) :
    (runEvents fs es).process_btn_enabled = !(runEvents fs es).workerActive := by
  suffices h : ∀ s : OCRApp, s.process_btn_enabled = !s.workerActive →
      (es.foldl (OCRApp.step fs) s).process_btn_enabled
        = !(es.foldl (OCRApp.step fs) s).workerActive by
    exact h initState rfl
  induction es with
  | nil => intro s hs; simpa using hs
  | cons e rest ih =>
    intro s hs
    simpa using ih (OCRApp.step fs s e) (flightInv_step fs s e hs)

/-- No event other than the worker's terminal `finished` signal re-enables a
disabled trigger button. -/
theorem step_keeps_btn_disabled (fs : String → Pixmap) (s : OCRApp) (e : Event)
    (hb : s.process_btn_enabled = false) (hne : e ≠ Event.workerFinished) :
    (OCRApp.step fs s e).process_btn_enabled = false := by
  cases e <;>
    simp only [OCRApp.step, OCRApp.run_ocr, OCRApp.handle_result,
      OCRApp.handle_error, OCRApp.update_status, OCRApp.cleanup_thread,
      OCRApp.select_image, OCRApp.load_image, OCRApp.load_pixmap,
      OCRApp.dropEvent, OCRApp.keyPressEvent, OCRApp.check_ollama_connection] <;>
    first
    | exact absurd rfl hne
    | ((repeat' split) <;>
        first
        | rfl
        | assumption)

/-- C7: single flight. In any reachable shell state: while a worker is active
a click on the trigger is inert (no second worker is dispatched — in fact the
state does not change at all, the disabled button swallowing the click); a
click in a ready state (button enabled, image and model present) disables the
trigger and dispatches exactly one worker; and no event except the worker's
terminal `finished` signal re-enables a disabled trigger. -/
theorem C7_single_flight (fs : String → Pixmap) (es : List Event) :
    ((runEvents fs es).workerActive = true →
      OCRApp.step fs (runEvents fs es) Event.clickRunOcr = runEvents fs es ∧
      (OCRApp.step fs (runEvents fs es) Event.clickRunOcr).dispatched
        = (runEvents fs es).dispatched) ∧
    ((runEvents fs es).process_btn_enabled = true →
      (runEvents fs es).image_path ≠ "" →
      (runEvents fs es).currentText ≠ "" →
      (OCRApp.step fs (runEvents fs es) Event.clickRunOcr).process_btn_enabled = false ∧
      (OCRApp.step fs (runEvents fs es) Event.clickRunOcr).workerActive = true ∧
      (OCRApp.step fs (runEvents fs es) Event.clickRunOcr).dispatched
        = (runEvents fs es).dispatched ++
            [OCRWorker.mk_init (runEvents fs es).image_path
              (runEvents fs es).currentText (runEvents fs es).ollama_url]) ∧
    (∀ e : Event, e ≠ Event.workerFinished →
      (runEvents fs es).process_btn_enabled = false →
      (OCRApp.step fs (runEvents fs es) e).process_btn_enabled = false) := by
  refine ⟨?_, ?_, ?_⟩
  · intro hact
    have hb : (runEvents fs es).process_btn_enabled = false := by
      rw [flightInv_runEvents fs es, hact]
      rfl
    constructor <;> simp [OCRApp.step, hb]
  · intro hen himg hmodel
    refine ⟨?_, ?_, ?_⟩ <;>
      simp [OCRApp.step, hen, OCRApp.run_ocr, himg, hmodel]
  · intro e hne hb
    exact step_keeps_btn_disabled fs (runEvents fs es) e hb hne

/-- The event sequence: drop `sample.png` on the window, click Run OCR. -/
def demoEvents : List Event := [Event.drop ["sample.png"], Event.clickRunOcr]

/-- Witness for C7: after a drop and a click a worker is in flight, and a
second click changes nothing; before the second click, the first click from
the ready state had disabled the trigger and dispatched exactly one
worker. -/
theorem C7_single_flight_witness :
    (OCRApp.step demoFs (runEvents demoFs demoEvents) Event.clickRunOcr).dispatched
      = (runEvents demoFs demoEvents).dispatched ∧
    (OCRApp.step demoFs (runEvents demoFs [Event.drop ["sample.png"]])
        Event.clickRunOcr).process_btn_enabled = false ∧
    (OCRApp.step demoFs (runEvents demoFs [Event.drop ["sample.png"]])
        Event.clickRunOcr).dispatched
      = (runEvents demoFs [Event.drop ["sample.png"]]).dispatched ++
          [OCRWorker.mk_init (runEvents demoFs [Event.drop ["sample.png"]]).image_path
            (runEvents demoFs [Event.drop ["sample.png"]]).currentText
            (runEvents demoFs [Event.drop ["sample.png"]]).ollama_url] :=
  ⟨((C7_single_flight demoFs demoEvents).1 (by decide)).2,
   ((C7_single_flight demoFs [Event.drop ["sample.png"]]).2.1 (by decide)
      (by decide) (by decide)).1,
   ((C7_single_flight demoFs [Event.drop ["sample.png"]]).2.1 (by decide)
      (by decide) (by decide)).2.2⟩
